import Mathlib

/-!
Shallow embedding of `src/src/agents/customer_support_agent.py`
(multi-agent customer support system).

Modelling conventions:
- Python dicts whose values are strings (the interaction records) are
  association lists `List (String × String)` with first-match lookup;
  `{**interaction, 'timestamp': ts}` is modelled by consing the
  timestamp binding in front, which shadows any earlier binding under
  first-match lookup, exactly as the dict merge does for reads.
- The `MemoryBank.memory_store` dict (session id → list of records) is
  an association list with get/set helpers.
- Python's `lst[-limit:]` slice is modelled faithfully by `pySliceFrom`,
  including its behaviour at zero and negative arguments.
- Timestamps and ids come from an injectable clock/id provider (spec §6),
  so every operation that calls `datetime.now()` takes the produced
  timestamp string as an explicit argument.
- The tool gateway is the external capability interface of spec §4.2:
  `process_query` and the orchestrator protocols take the tool behaviour
  for each call as an argument, a function returning `Except` so a tool
  invocation can either produce a structured result or fail.
- A raised Python exception is the `Except.error` branch of `PyErr`;
  `asyncio.gather(..., return_exceptions=True)` keeps each branch's
  `Except` value in its slot.
-/

/-- States of the `SessionState` enum. -/
inductive SessionState where
  | ACTIVE
  | PAUSED
  | COMPLETED
  | FAILED
deriving Repr, DecidableEq

/-- An interaction record: a string-keyed dict with string values. -/
abbrev Interaction := List (String × String)

/-- First-match lookup in a dict, `d.get(key)` returning `None` when absent. -/
def dictGet : Interaction → String → Option String
  | [], _ => none
  | (k, v) :: rest, key => if k = key then some v else dictGet rest key

/-- Python `d.get(key, dflt)`. -/
def dictGetD (m : Interaction) (key dflt : String) : String :=
  (dictGet m key).getD dflt

/-- Lookup in the `memory_store` dict (session id → record list). -/
def msGet : List (String × List Interaction) → String → Option (List Interaction)
  | [], _ => none
  | (k, v) :: rest, sid => if k = sid then some v else msGet rest sid

/-- Update (or insert) a binding in the `memory_store` dict. -/
def msSet : List (String × List Interaction) → String → List Interaction →
    List (String × List Interaction)
  | [], sid, v => [(sid, v)]
  | (k, w) :: rest, sid, v =>
    if k = sid then (k, v) :: rest else (k, w) :: msSet rest sid v

/-- The `MemoryBank`: a mapping from session identifier to the ordered
sequence of stored interaction records. -/
structure MemoryBank where
  memory_store : List (String × List Interaction)
deriving Repr, DecidableEq

/-- A fresh `MemoryBank` as built by `MemoryBank.__init__`. -/
def MemoryBank.empty : MemoryBank := ⟨[]⟩

/-- The record actually stored: `{**interaction, 'timestamp': ts}`. -/
def storedEntry (interaction : Interaction) (ts : String) : Interaction :=
  ("timestamp", ts) :: interaction

/-- `MemoryBank.store_interaction`: append the timestamped record to the
session's sequence, creating the sequence if absent. `ts` is the string
produced by `datetime.now().isoformat()` at store time. -/
def MemoryBank.store_interaction (mb : MemoryBank) (session_id : String)
    (interaction : Interaction) (ts : String) : MemoryBank :=
  let cur := (msGet mb.memory_store session_id).getD []
  ⟨msSet mb.memory_store session_id (cur ++ [storedEntry interaction ts])⟩

/-- Python's `l[i:]` slice for an arbitrary integer `i`: a negative start
is taken from the end and clamped at 0, a nonnegative start is clamped at
the length. -/
def pySliceFrom (l : List Interaction) (i : Int) : List Interaction :=
  l.drop (if i < 0 then max ((l.length : Int) + i) 0
          else min i (l.length : Int)).toNat

/-- `MemoryBank.retrieve_session_memory`: `[]` for an unknown session,
otherwise the Python slice `stored[-limit:]`. The source gives `limit`
the default value 10; callers of the default pass 10 explicitly here. -/
def MemoryBank.retrieve_session_memory (mb : MemoryBank) (session_id : String)
    (limit : Int) : List Interaction :=
  match msGet mb.memory_store session_id with
  | none => []
  | some l => pySliceFrom l (-limit)

/-- The record returned by `compact_context` on a session with memory. -/
structure CompactContext where
  session_id : String
  interaction_count : Nat
  first_interaction : Option String
  last_interaction : Option String
  recent_summary : String
deriving Repr, DecidableEq

/-- `MemoryBank.compact_context`: reads the session through
`retrieve_session_memory` at the default limit 10; `none` models the
empty dict returned when that read is empty. `memory[0]['timestamp']`
and `memory[-1]['timestamp']` are dict lookups, hence `Option`-valued. -/
def MemoryBank.compact_context (mb : MemoryBank) (session_id : String) :
    Option CompactContext :=
  if h : mb.retrieve_session_memory session_id 10 = [] then none
  else some
    { session_id := session_id
      interaction_count := (mb.retrieve_session_memory session_id 10).length
      first_interaction :=
        dictGet ((mb.retrieve_session_memory session_id 10).head h) "timestamp"
      last_interaction :=
        dictGet ((mb.retrieve_session_memory session_id 10).getLast h) "timestamp"
      recent_summary :=
        String.intercalate " | "
          ((pySliceFrom (mb.retrieve_session_memory session_id 10) (-3)).map
            (fun m => dictGetD m "summary" "")) }

/-- All records stored for a session, `[]` when the session is unknown.
Helper for stating theorems; not a source method. -/
def MemoryBank.entriesFor (mb : MemoryBank) (sid : String) : List Interaction :=
  (msGet mb.memory_store sid).getD []

/-- Result of `CustomTools.search_knowledge_base` and of any search tool
behind the capability interface of spec §4.2. -/
structure SearchResult where
  found : Bool
  results : List String
  confidence : ℚ
deriving Repr, DecidableEq

/-- Result of `CustomTools.create_ticket`. -/
structure TicketResult where
  ticket_id : String
  status : String
deriving Repr, DecidableEq

/-- `CustomTools.search_knowledge_base` (the reference stub): always found,
one result string, confidence 0.85. -/
def CustomTools.search_knowledge_base (query : String) : SearchResult :=
  { found := true, results := ["Result for " ++ query], confidence := 85 / 100 }

/-- `CustomTools.create_ticket` (the reference stub); `hex8` is the
`uuid.uuid4().hex[:8]` fragment from the injected id provider. -/
def CustomTools.create_ticket (hex8 : String) (_issue _priority : String) :
    TicketResult :=
  { ticket_id := "TKT-" ++ hex8, status := "created" }

/-- A search capability: one tool invocation either returns a structured
result or fails (transport/infra failure raising from the await). -/
abbrev SearchTool := String → Except String SearchResult

/-- A ticket capability: `create_ticket(issue, priority)` as an injectable
tool that may fail. -/
abbrev TicketTool := String → String → Except String TicketResult

/-- A Python exception escaping `process_query`: either a failure raised
by the awaited tool call, or the `IndexError` from `result['results'][0]`
on an empty result list. -/
inductive PyErr where
  | toolFailure (msg : String)
  | indexError
deriving Repr, DecidableEq

/-- An `Agent`: identity, role, private session id, lifecycle state. The
shared `MemoryBank` is threaded explicitly through operations instead of
being held by reference. -/
structure Agent where
  agent_id : String
  role : String
  session_id : String
  state : SessionState
deriving Repr, DecidableEq

/-- `Agent.__init__`: state starts `ACTIVE`; the session id comes from the
injected id provider. -/
def Agent.create (agent_id role session_id : String) : Agent :=
  { agent_id := agent_id, role := role, session_id := session_id,
    state := SessionState.ACTIVE }

/-- `Agent.process_query`: store the query interaction, await the search
tool, build `"[role] Found response: " ++ results[0]`, store the response
interaction, return the response. `ts1`/`ts2` are the two store-time
timestamps. The pair holds the updated bank and the returned string or
the escaping exception. -/
def Agent.process_query (a : Agent) (mb : MemoryBank) (search : SearchTool)
    (ts1 ts2 : String) (query : String) : MemoryBank × Except PyErr String :=
  let mb1 := mb.store_interaction a.session_id
    [("agent", a.agent_id), ("query", query), ("role", a.role)] ts1
  match search query with
  | Except.error msg => (mb1, Except.error (PyErr.toolFailure msg))
  | Except.ok result =>
    match result.results with
    | [] => (mb1, Except.error PyErr.indexError)
    | r0 :: _ =>
      let response := "[" ++ a.role ++ "] Found response: " ++ r0
      let mb2 := mb1.store_interaction a.session_id
        [("agent", a.agent_id), ("response", response),
         ("tool_used", "search_knowledge_base")] ts2
      (mb2, Except.ok response)

/-- `Agent.pause_execution`: set state to `PAUSED`. -/
def Agent.pause_execution (a : Agent) : Agent :=
  { a with state := SessionState.PAUSED }

/-- `Agent.resume_execution`: set state to `ACTIVE`. -/
def Agent.resume_execution (a : Agent) : Agent :=
  { a with state := SessionState.ACTIVE }

/-- The orchestrator `CustomerSupportMultiAgentSystem`: the shared
`MemoryBank`, its own session id and state, and the three fixed agents. -/
structure CustomerSupportMultiAgentSystem where
  memory_bank : MemoryBank
  session_id : String
  state : SessionState
  routing_agent : Agent
  support_agent : Agent
  escalation_agent : Agent
deriving Repr, DecidableEq

/-- `CustomerSupportMultiAgentSystem.__init__`: fresh empty bank, state
`ACTIVE`, the three agents with their fixed ids and roles; the four
session ids come from the injected id provider. -/
def CustomerSupportMultiAgentSystem.create (sid rsid ssid esid : String) :
    CustomerSupportMultiAgentSystem :=
  { memory_bank := MemoryBank.empty
    session_id := sid
    state := SessionState.ACTIVE
    routing_agent := Agent.create "router-001" "Issue Router" rsid
    support_agent := Agent.create "support-001" "Technical Support" ssid
    escalation_agent := Agent.create "escalate-001" "Escalation Handler" esid }

deriving instance DecidableEq for Except

/-- Envelope returned by `process_customer_request`; exception-as-value
slots for the two gathered branches. -/
structure RequestEnvelope where
  session_id : String
  routing_response : Except PyErr String
  support_response : Except PyErr String
  timestamp : String
deriving Repr, DecidableEq

/-- `process_customer_request`: fan out `process_query` to the routing and
support agents with `asyncio.gather(..., return_exceptions=True)`, so each
slot of the envelope carries that branch's value or captured exception and
the call itself never raises. The two agents write to distinct private
sessions, so threading the bank router-then-support yields the same bank
as any interleaving that keeps each agent's own two writes ordered. Each
branch's tool behaviour for this invocation is passed separately. -/
def CustomerSupportMultiAgentSystem.process_customer_request
    (s : CustomerSupportMultiAgentSystem)
    (routerSearch supportSearch : SearchTool)
    (ts1 ts2 ts3 ts4 tsEnv : String) (customer_query : String) :
    CustomerSupportMultiAgentSystem × RequestEnvelope :=
  let r := s.routing_agent.process_query s.memory_bank routerSearch ts1 ts2
    customer_query
  let t := s.support_agent.process_query r.1 supportSearch ts3 ts4
    customer_query
  ({ s with memory_bank := t.1 },
   { session_id := s.session_id
     routing_response := r.2
     support_response := t.2
     timestamp := tsEnv })

/-- Result of a completed `handle_complex_escalation` run. -/
structure EscalationResult where
  routing : String
  support : String
  escalation : String
  ticket : TicketResult
deriving Repr, DecidableEq

/-- `handle_complex_escalation`: strict pipeline router → support →
escalation → `create_ticket(issue, 'high')`. No stage is wrapped in a
handler, so the first stage that raises propagates its exception and the
later stages never run. The bank reflects exactly the writes of the
stages that did run. -/
def CustomerSupportMultiAgentSystem.handle_complex_escalation
    (s : CustomerSupportMultiAgentSystem)
    (search1 search2 search3 : SearchTool) (ticketTool : TicketTool)
    (ts1 ts2 ts3 ts4 ts5 ts6 : String) (issue : String) :
    CustomerSupportMultiAgentSystem × Except PyErr EscalationResult :=
  let r1 := s.routing_agent.process_query s.memory_bank search1 ts1 ts2 issue
  match r1.2 with
  | Except.error e => ({ s with memory_bank := r1.1 }, Except.error e)
  | Except.ok route_result =>
    let r2 := s.support_agent.process_query r1.1 search2 ts3 ts4
      ("Escalated: " ++ issue)
    match r2.2 with
    | Except.error e => ({ s with memory_bank := r2.1 }, Except.error e)
    | Except.ok support_result =>
      let r3 := s.escalation_agent.process_query r2.1 search3 ts5 ts6
        ("Escalation needed: " ++ issue)
      match r3.2 with
      | Except.error e => ({ s with memory_bank := r3.1 }, Except.error e)
      | Except.ok escalation_result =>
        match ticketTool issue "high" with
        | Except.error msg =>
          ({ s with memory_bank := r3.1 },
           Except.error (PyErr.toolFailure msg))
        | Except.ok ticket =>
          ({ s with memory_bank := r3.1 },
           Except.ok
             { routing := route_result
               support := support_result
               escalation := escalation_result
               ticket := ticket })

/-- `pause_session`: set the orchestrator state to `PAUSED`, then pause
router, support, escalation in that order. -/
def CustomerSupportMultiAgentSystem.pause_session
    (s : CustomerSupportMultiAgentSystem) : CustomerSupportMultiAgentSystem :=
  { s with state := SessionState.PAUSED
           routing_agent := s.routing_agent.pause_execution
           support_agent := s.support_agent.pause_execution
           escalation_agent := s.escalation_agent.pause_execution }

/-- `resume_session`: set the orchestrator state to `ACTIVE`, then resume
router, support, escalation in that order. -/
def CustomerSupportMultiAgentSystem.resume_session
    (s : CustomerSupportMultiAgentSystem) : CustomerSupportMultiAgentSystem :=
  { s with state := SessionState.ACTIVE
           routing_agent := s.routing_agent.resume_execution
           support_agent := s.support_agent.resume_execution
           escalation_agent := s.escalation_agent.resume_execution }

/-- Return value of `get_session_metrics`. -/
structure SessionMetrics where
  session_id : String
  state : SessionState
  memory_metrics : Option CompactContext
  timestamp : String
deriving Repr, DecidableEq

/-- `get_session_metrics`: read-only view built from `compact_context` on
the routing agent's session. -/
def CustomerSupportMultiAgentSystem.get_session_metrics
    (s : CustomerSupportMultiAgentSystem) (ts : String) : SessionMetrics :=
  { session_id := s.session_id
    state := s.state
    memory_metrics := s.memory_bank.compact_context s.routing_agent.session_id
    timestamp := ts }

/-- N successive `store_interaction` calls for one session, oldest first;
each item carries its interaction and its store-time timestamp. -/
def storeAll (mb : MemoryBank) (sid : String)
    (items : List (Interaction × String)) : MemoryBank :=
  items.foldl (fun m it => m.store_interaction sid it.1 it.2) mb

/-- A bank holding exactly one stored interaction for `"session-1"`. -/
def mbOne : MemoryBank :=
  MemoryBank.empty.store_interaction "session-1" [("summary", "first")] "t0"

/-- Eleven interactions, each with a distinct summary and timestamp. -/
def elevenItems : List (Interaction × String) :=
  (List.range 11).map (fun i => ([("summary", toString i)], toString i))

/-- A bank holding eleven stored interactions for `"session-1"`. -/
def mbEleven : MemoryBank := storeAll MemoryBank.empty "session-1" elevenItems

/-- Two interactions with distinct summaries and timestamps. -/
def twoItems : List (Interaction × String) :=
  [([("summary", "a")], "t0"), ([("summary", "b")], "t1")]

/-- A search tool whose every invocation finds the single result `KB#1`
with confidence 0.85 (the stub of the concrete scenarios). -/
def stubFoundKB1 : SearchTool :=
  fun _ => Except.ok { found := true, results := ["KB#1"], confidence := 85 / 100 }

/-- A search tool reporting a normal not-found outcome: no results. -/
def stubNotFound : SearchTool :=
  fun _ => Except.ok { found := false, results := [], confidence := 0 }

/-- A search tool whose invocation raises a transport failure. -/
def stubSearchDown : SearchTool := fun _ => Except.error "search transport down"

/-- A ticket tool that always creates a ticket. -/
def stubTicketOk : TicketTool :=
  fun _ _ => Except.ok { ticket_id := "TKT-deadbeef", status := "created" }

/-- A ticket tool whose invocation raises a transport failure. -/
def stubTicketDown : TicketTool := fun _ _ => Except.error "ticket transport down"

/-- A freshly constructed orchestrator with concrete injected session ids. -/
def sysDemo : CustomerSupportMultiAgentSystem :=
  CustomerSupportMultiAgentSystem.create "sid-0" "sid-router" "sid-support"
    "sid-escalate"

/-- Updating a key in the store makes it retrievable. -/
theorem msGet_msSet_self (st : List (String × List Interaction)) (sid : String)
    (v : List Interaction) : msGet (msSet st sid v) sid = some v := by
  induction st with
  | nil => simp [msSet, msGet]
  | cons kv rest ih =>
    obtain ⟨k, w⟩ := kv
    by_cases h : k = sid
    · simp [msSet, msGet, h]
    · simp [msSet, msGet, h, ih]

/-- One `store_interaction` appends one timestamped record to the
session's sequence. -/
theorem entriesFor_store (mb : MemoryBank) (sid : String) (i : Interaction)
    (ts : String) :
    (mb.store_interaction sid i ts).entriesFor sid
      = mb.entriesFor sid ++ [storedEntry i ts] := by
  unfold MemoryBank.store_interaction MemoryBank.entriesFor
  simp [msGet_msSet_self]

/-- A run of `store_interaction` calls appends the timestamped records in
call order. -/
theorem entriesFor_storeAll (mb : MemoryBank) (sid : String)
    (items : List (Interaction × String)) :
    (storeAll mb sid items).entriesFor sid
      = mb.entriesFor sid ++ items.map (fun it => storedEntry it.1 it.2) := by
  induction items generalizing mb with
  | nil => simp [storeAll]
  | cons it rest ih =>
    have hstep : storeAll mb sid (it :: rest)
        = storeAll (mb.store_interaction sid it.1 it.2) sid rest := rfl
    rw [hstep, ih, entriesFor_store]
    simp

/-- Retrieval is the Python slice `stored[-limit:]` over the session's
stored sequence; the unknown-session branch coincides with slicing `[]`. -/
theorem retrieve_eq_slice (mb : MemoryBank) (sid : String) (limit : Int) :
    mb.retrieve_session_memory sid limit
      = pySliceFrom (mb.entriesFor sid) (-limit) := by
  unfold MemoryBank.retrieve_session_memory MemoryBank.entriesFor
  cases h : msGet mb.memory_store sid with
  | none => simp [pySliceFrom]
  | some l => simp

/-- For a positive count `k`, the slice `l[-k:]` keeps the last `k`
elements (all of them when `k` exceeds the length). -/
theorem pySliceFrom_pos (l : List Interaction) (k : Int) (hk : 0 < k) :
    pySliceFrom l (-k) = l.drop (l.length - k.toNat) := by
  unfold pySliceFrom
  rw [if_pos (by omega : -k < 0)]
  congr 1
  omega

/-- For a nonpositive `k`, the slice `l[-k:]` drops the first `-k`
elements: at `k = 0` it is the whole list. -/
theorem pySliceFrom_nonpos (l : List Interaction) (k : Int) (hk : k ≤ 0) :
    pySliceFrom l (-k) = l.drop (-k).toNat := by
  unfold pySliceFrom
  rw [if_neg (by omega : ¬(-k < 0))]
  rcases le_total (-k) (l.length : Int) with h | h
  · rw [min_eq_left h]
  · rw [min_eq_right h]
    rw [Int.toNat_natCast, List.drop_length, Eq.comm]
    exact List.drop_eq_nil_of_le (by omega)

/-- Taking the last 3 of the last 10 elements is taking the last 3. -/
theorem drop_window (l : List Interaction) :
    pySliceFrom (l.drop (l.length - 10)) (-3)
      = l.drop (l.length - 3) := by
  rw [pySliceFrom_pos _ 3 (by norm_num), List.length_drop, List.drop_drop]
  congr 1
  omega

/-- The value-or-exception outcome of `process_query` depends only on the
agent, the tool and the query, not on the bank state or the timestamps. -/
theorem process_query_snd (a : Agent) (mb mb' : MemoryBank)
    (search : SearchTool) (t1 t2 t1' t2' q : String) :
    (a.process_query mb search t1 t2 q).2
      = (a.process_query mb' search t1' t2' q).2 := by
  unfold Agent.process_query
  cases h : search q with
  | error msg => simp [h]
  | ok result =>
    cases hr : result.results with
    | nil => simp [h, hr]
    | cons r0 rest => simp [h, hr]

/-- Claim C1, counterexample: on a bank holding one stored interaction for
the session, `retrieve_session_memory` at limit 0 does not return an empty
sequence, contradicting the claim that every limit at most 0 yields an
empty sequence. -/
theorem C1_counterexample :
    (mbOne.entriesFor "session-1").length = 1 ∧
    mbOne.retrieve_session_memory "session-1" 0 ≠ [] := by
  constructor
  · decide
  · decide

/-- Claim C1, amended: for every limit at most 0, `retrieve_session_memory`
returns the stored sequence with its first `-limit` entries dropped, so at
limit 0 it returns the whole stored sequence; and for every limit strictly
larger than the stored count it returns the whole stored sequence. -/
theorem C1_thm (mb : MemoryBank) (sid : String) (limit : Int) :
    (limit ≤ 0 →
      mb.retrieve_session_memory sid limit
        = (mb.entriesFor sid).drop (-limit).toNat) ∧
    (((mb.entriesFor sid).length : Int) < limit →
      mb.retrieve_session_memory sid limit = mb.entriesFor sid) := by
  constructor
  · intro h
    rw [retrieve_eq_slice, pySliceFrom_nonpos _ _ h]
  · intro h
    rw [retrieve_eq_slice, pySliceFrom_pos _ _ (by omega),
      Nat.sub_eq_zero_of_le (by omega), List.drop_zero]

/-- Claim C1, witness: both amended branches evaluated on the one-entry
bank, at limit 0 and at limit 2. -/
theorem C1_witness :
    ((0 : Int) ≤ 0 ∧
      mbOne.retrieve_session_memory "session-1" 0
        = (mbOne.entriesFor "session-1").drop 0) ∧
    (((mbOne.entriesFor "session-1").length : Int) < 2 ∧
      mbOne.retrieve_session_memory "session-1" 2
        = mbOne.entriesFor "session-1") :=
  ⟨⟨by decide, (C1_thm mbOne "session-1" 0).1 (by decide)⟩,
   ⟨by decide, (C1_thm mbOne "session-1" 2).2 (by decide)⟩⟩

/-- Claim C2, counterexample: with eleven interactions stored for the
session, `compact_context` reports `interaction_count` 10, not the total
number of entries ever stored (11), because it reads the session through
`retrieve_session_memory` at the default limit 10. -/
theorem C2_counterexample :
    (mbEleven.entriesFor "session-1").length = 11 ∧
    (mbEleven.compact_context "session-1").map CompactContext.interaction_count
      ≠ some (mbEleven.entriesFor "session-1").length := by
  constructor
  · decide
  · decide

/-- Claim C2, amended: for every session with at least one stored entry,
`compact_context` returns a mapping whose `interaction_count` is the
stored count capped at 10 (the default retrieval limit), and whose
`recent_summary` joins the `summary` field (empty string when absent) of
at most the last 3 stored entries with `" | "`. -/
theorem C2_thm (mb : MemoryBank) (sid : String) (h : mb.entriesFor sid ≠ []) :
    ∃ c, mb.compact_context sid = some c ∧
      c.interaction_count = min (mb.entriesFor sid).length 10 ∧
      c.recent_summary = String.intercalate " | "
        (((mb.entriesFor sid).drop ((mb.entriesFor sid).length - 3)).map
          (fun m => dictGetD m "summary" "")) := by
  have hlen : 0 < (mb.entriesFor sid).length := List.length_pos.mpr h
  have hmem : mb.retrieve_session_memory sid 10
      = (mb.entriesFor sid).drop ((mb.entriesFor sid).length - 10) := by
    have := pySliceFrom_pos (mb.entriesFor sid) 10 (by norm_num)
    rw [retrieve_eq_slice]
    simpa using this
  have hne : ¬ mb.retrieve_session_memory sid 10 = [] := by
    rw [hmem]
    intro hempty
    have := congrArg List.length hempty
    rw [List.length_drop] at this
    simp at this
    omega
  unfold MemoryBank.compact_context
  rw [dif_neg hne]
  refine ⟨_, rfl, ?_, ?_⟩
  · show (mb.retrieve_session_memory sid 10).length = _
    rw [hmem, List.length_drop]
    omega
  · show String.intercalate " | "
        ((pySliceFrom (mb.retrieve_session_memory sid 10) (-3)).map
          (fun m => dictGetD m "summary" "")) = _
    rw [hmem, drop_window]

/-- Claim C2, witness: the amended statement evaluated on the one-entry
bank. -/
theorem C2_witness :
    mbOne.entriesFor "session-1" ≠ [] ∧
    ∃ c, mbOne.compact_context "session-1" = some c ∧
      c.interaction_count = min (mbOne.entriesFor "session-1").length 10 ∧
      c.recent_summary = String.intercalate " | "
        (((mbOne.entriesFor "session-1").drop
            ((mbOne.entriesFor "session-1").length - 3)).map
          (fun m => dictGetD m "summary" "")) :=
  ⟨by decide, C2_thm mbOne "session-1" (by decide)⟩

/-- Claim C3, counterexample: an agent paused through `pause_execution`
still performs its work in `process_query`: the bank afterwards holds
records for the agent's session and the response produced by the tool
call is returned, refuting that a paused agent performs no memory write
and no tool call. -/
theorem C3_counterexample :
    ((Agent.create "router-001" "Issue Router" "sid-router").pause_execution.state
        = SessionState.PAUSED) ∧
    ((Agent.create "router-001" "Issue Router"
        "sid-router").pause_execution.process_query MemoryBank.empty stubFoundKB1
        "t1" "t2" "billing issue").1.entriesFor "sid-router" ≠ [] ∧
    ((Agent.create "router-001" "Issue Router"
        "sid-router").pause_execution.process_query MemoryBank.empty stubFoundKB1
        "t1" "t2" "billing issue").2
      = Except.ok "[Issue Router] Found response: KB#1" := by
  refine ⟨rfl, ?_, ?_⟩
  · decide
  · decide

/-- Claim C3, amended: `process_query` never consults the agent's
`SessionState`: a `PAUSED` agent performs exactly the same memory writes
and tool call, with the same result, as an `ACTIVE` one. -/
theorem C3_thm (a : Agent) (mb : MemoryBank) (search : SearchTool)
    (t1 t2 q : String) :
    ({ a with state := SessionState.PAUSED } : Agent).process_query mb search
        t1 t2 q
      = ({ a with state := SessionState.ACTIVE } : Agent).process_query mb
          search t1 t2 q := rfl

/-- Claim C4: each slot of the envelope returned by
`process_customer_request` always carries its own branch's outcome —
value or captured error — independently of the other branch, and the
call itself returns an envelope rather than raising. In particular, in
both failure directions: when the router succeeds and the support branch
raises, the envelope holds the router's value next to the captured
error; and when the router raises and the support branch succeeds, the
envelope holds the captured error next to the support value. -/
theorem C4_thm (s : CustomerSupportMultiAgentSystem)
    (routerSearch supportSearch : SearchTool)
    (ts1 ts2 ts3 ts4 tsEnv q v : String) (e : PyErr) :
    ((s.process_customer_request routerSearch supportSearch ts1 ts2 ts3 ts4
        tsEnv q).2.routing_response
      = (s.routing_agent.process_query s.memory_bank routerSearch ts1 ts2
          q).2) ∧
    ((s.process_customer_request routerSearch supportSearch ts1 ts2 ts3 ts4
        tsEnv q).2.support_response
      = (s.support_agent.process_query s.memory_bank supportSearch ts3 ts4
          q).2) ∧
    ((s.routing_agent.process_query s.memory_bank routerSearch ts1 ts2 q).2
        = Except.ok v →
      (s.support_agent.process_query s.memory_bank supportSearch ts3 ts4
          q).2 = Except.error e →
      (s.process_customer_request routerSearch supportSearch ts1 ts2 ts3 ts4
          tsEnv q).2.routing_response = Except.ok v ∧
      (s.process_customer_request routerSearch supportSearch ts1 ts2 ts3 ts4
          tsEnv q).2.support_response = Except.error e) ∧
    ((s.routing_agent.process_query s.memory_bank routerSearch ts1 ts2 q).2
        = Except.error e →
      (s.support_agent.process_query s.memory_bank supportSearch ts3 ts4
          q).2 = Except.ok v →
      (s.process_customer_request routerSearch supportSearch ts1 ts2 ts3 ts4
          tsEnv q).2.routing_response = Except.error e ∧
      (s.process_customer_request routerSearch supportSearch ts1 ts2 ts3 ts4
          tsEnv q).2.support_response = Except.ok v) := by
  have hsup : (s.process_customer_request routerSearch supportSearch ts1 ts2
      ts3 ts4 tsEnv q).2.support_response
      = (s.support_agent.process_query s.memory_bank supportSearch ts3 ts4
          q).2 := by
    show (s.support_agent.process_query
        (s.routing_agent.process_query s.memory_bank routerSearch ts1 ts2
          q).1 supportSearch ts3 ts4 q).2
      = (s.support_agent.process_query s.memory_bank supportSearch ts3 ts4
          q).2
    exact process_query_snd _ _ _ _ _ _ _ _ _
  refine ⟨rfl, hsup, ?_, ?_⟩
  · intro hr hs
    exact ⟨hr, hsup.trans hs⟩
  · intro hr hs
    exact ⟨hr, hsup.trans hs⟩

/-- Claim C4, witness: both failure directions evaluated concretely. With
the router on the `KB#1` stub and the support tool raising, the envelope
keeps the router's value next to the captured error; with the tools
swapped, the envelope keeps the captured error next to the support
value. -/
theorem C4_witness :
    ((sysDemo.routing_agent.process_query sysDemo.memory_bank stubFoundKB1
        "t1" "t2" "billing issue").2
      = Except.ok "[Issue Router] Found response: KB#1") ∧
    ((sysDemo.support_agent.process_query sysDemo.memory_bank stubSearchDown
        "t3" "t4" "billing issue").2
      = Except.error (PyErr.toolFailure "search transport down")) ∧
    ((sysDemo.process_customer_request stubFoundKB1 stubSearchDown "t1" "t2"
        "t3" "t4" "t5" "billing issue").2.routing_response
      = Except.ok "[Issue Router] Found response: KB#1") ∧
    ((sysDemo.process_customer_request stubFoundKB1 stubSearchDown "t1" "t2"
        "t3" "t4" "t5" "billing issue").2.support_response
      = Except.error (PyErr.toolFailure "search transport down")) ∧
    ((sysDemo.process_customer_request stubSearchDown stubFoundKB1 "t1" "t2"
        "t3" "t4" "t5" "billing issue").2.routing_response
      = Except.error (PyErr.toolFailure "search transport down")) ∧
    ((sysDemo.process_customer_request stubSearchDown stubFoundKB1 "t1" "t2"
        "t3" "t4" "t5" "billing issue").2.support_response
      = Except.ok "[Technical Support] Found response: KB#1") := by
  have hdir1 := (C4_thm sysDemo stubFoundKB1 stubSearchDown "t1" "t2" "t3"
    "t4" "t5" "billing issue" "[Issue Router] Found response: KB#1"
    (PyErr.toolFailure "search transport down")).2.2.1 (by decide) (by decide)
  have hdir2 := (C4_thm sysDemo stubSearchDown stubFoundKB1 "t1" "t2" "t3"
    "t4" "t5" "billing issue" "[Technical Support] Found response: KB#1"
    (PyErr.toolFailure "search transport down")).2.2.2 (by decide) (by decide)
  exact ⟨by decide, by decide, hdir1.1, hdir1.2, hdir2.1, hdir2.2⟩

/-- Claim C5: a failure at any stage of `handle_complex_escalation`
propagates that exact error and aborts every later stage. Stated for each
of the three stages: when the routing stage raises, the call returns that
error and its entire outcome (returned value and bank state) is invariant
under replacing the support and escalation search tools and the ticket
tool; when the support stage raises, the outcome is invariant under
replacing the escalation search tool and the ticket tool; when the
escalation stage raises, the outcome is invariant under replacing the
ticket tool — so in every case no later stage runs and `create_ticket`
is never invoked once any stage has failed. -/
theorem C5_thm (s : CustomerSupportMultiAgentSystem)
    (search1 search2 search3 search2' search3' : SearchTool)
    (ticketTool ticketTool' : TicketTool)
    (ts1 ts2 ts3 ts4 ts5 ts6 issue v w : String) (e : PyErr) :
    ((s.routing_agent.process_query s.memory_bank search1 ts1 ts2 issue).2
        = Except.error e →
      (s.handle_complex_escalation search1 search2 search3 ticketTool ts1 ts2
          ts3 ts4 ts5 ts6 issue).2 = Except.error e ∧
      s.handle_complex_escalation search1 search2 search3 ticketTool ts1 ts2
          ts3 ts4 ts5 ts6 issue
        = s.handle_complex_escalation search1 search2' search3' ticketTool'
            ts1 ts2 ts3 ts4 ts5 ts6 issue) ∧
    ((s.routing_agent.process_query s.memory_bank search1 ts1 ts2 issue).2
        = Except.ok v →
      (s.support_agent.process_query s.memory_bank search2 ts3 ts4
          ("Escalated: " ++ issue)).2 = Except.error e →
      (s.handle_complex_escalation search1 search2 search3 ticketTool ts1 ts2
          ts3 ts4 ts5 ts6 issue).2 = Except.error e ∧
      s.handle_complex_escalation search1 search2 search3 ticketTool ts1 ts2
          ts3 ts4 ts5 ts6 issue
        = s.handle_complex_escalation search1 search2 search3' ticketTool'
            ts1 ts2 ts3 ts4 ts5 ts6 issue) ∧
    ((s.routing_agent.process_query s.memory_bank search1 ts1 ts2 issue).2
        = Except.ok v →
      (s.support_agent.process_query s.memory_bank search2 ts3 ts4
          ("Escalated: " ++ issue)).2 = Except.ok w →
      (s.escalation_agent.process_query s.memory_bank search3 ts5 ts6
          ("Escalation needed: " ++ issue)).2 = Except.error e →
      (s.handle_complex_escalation search1 search2 search3 ticketTool ts1 ts2
          ts3 ts4 ts5 ts6 issue).2 = Except.error e ∧
      s.handle_complex_escalation search1 search2 search3 ticketTool ts1 ts2
          ts3 ts4 ts5 ts6 issue
        = s.handle_complex_escalation search1 search2 search3 ticketTool'
            ts1 ts2 ts3 ts4 ts5 ts6 issue) := by
  refine ⟨?_, ?_, ?_⟩
  · intro h1
    constructor
    · simp only [CustomerSupportMultiAgentSystem.handle_complex_escalation,
        h1]
    · simp only [CustomerSupportMultiAgentSystem.handle_complex_escalation,
        h1]
  · intro h1 h2
    have h2' : (s.support_agent.process_query
        (s.routing_agent.process_query s.memory_bank search1 ts1 ts2 issue).1
        search2 ts3 ts4 ("Escalated: " ++ issue)).2 = Except.error e :=
      (process_query_snd _ _ _ _ _ _ _ _ _).trans h2
    constructor
    · simp only [CustomerSupportMultiAgentSystem.handle_complex_escalation,
        h1, h2']
    · simp only [CustomerSupportMultiAgentSystem.handle_complex_escalation,
        h1, h2']
  · intro h1 h2 h3
    have h2' : (s.support_agent.process_query
        (s.routing_agent.process_query s.memory_bank search1 ts1 ts2 issue).1
        search2 ts3 ts4 ("Escalated: " ++ issue)).2 = Except.ok w :=
      (process_query_snd _ _ _ _ _ _ _ _ _).trans h2
    have h3' : (s.escalation_agent.process_query
        (s.support_agent.process_query
          (s.routing_agent.process_query s.memory_bank search1 ts1 ts2
            issue).1 search2 ts3 ts4 ("Escalated: " ++ issue)).1
        search3 ts5 ts6 ("Escalation needed: " ++ issue)).2
        = Except.error e :=
      (process_query_snd _ _ _ _ _ _ _ _ _).trans h3
    constructor
    · simp only [CustomerSupportMultiAgentSystem.handle_complex_escalation,
        h1, h2', h3']
    · simp only [CustomerSupportMultiAgentSystem.handle_complex_escalation,
        h1, h2', h3']

/-- Claim C5, witness: all three failing stages evaluated concretely. A
routing-stage failure propagates with later tools irrelevant; a
support-stage failure propagates with the escalation and ticket tools
irrelevant; an escalation-stage failure propagates with the ticket tool
irrelevant. -/
theorem C5_witness :
    ((sysDemo.routing_agent.process_query sysDemo.memory_bank stubSearchDown
        "t1" "t2" "Service down").2
      = Except.error (PyErr.toolFailure "search transport down")) ∧
    ((sysDemo.handle_complex_escalation stubSearchDown stubFoundKB1
        stubFoundKB1 stubTicketOk "t1" "t2" "t3" "t4" "t5" "t6"
        "Service down").2
      = Except.error (PyErr.toolFailure "search transport down")) ∧
    (sysDemo.handle_complex_escalation stubSearchDown stubFoundKB1
        stubFoundKB1 stubTicketOk "t1" "t2" "t3" "t4" "t5" "t6" "Service down"
      = sysDemo.handle_complex_escalation stubSearchDown stubSearchDown
          stubSearchDown stubTicketDown "t1" "t2" "t3" "t4" "t5" "t6"
          "Service down") ∧
    ((sysDemo.support_agent.process_query sysDemo.memory_bank stubSearchDown
        "t3" "t4" ("Escalated: " ++ "Service down")).2
      = Except.error (PyErr.toolFailure "search transport down")) ∧
    ((sysDemo.handle_complex_escalation stubFoundKB1 stubSearchDown
        stubFoundKB1 stubTicketOk "t1" "t2" "t3" "t4" "t5" "t6"
        "Service down").2
      = Except.error (PyErr.toolFailure "search transport down")) ∧
    (sysDemo.handle_complex_escalation stubFoundKB1 stubSearchDown
        stubFoundKB1 stubTicketOk "t1" "t2" "t3" "t4" "t5" "t6" "Service down"
      = sysDemo.handle_complex_escalation stubFoundKB1 stubSearchDown
          stubSearchDown stubTicketDown "t1" "t2" "t3" "t4" "t5" "t6"
          "Service down") ∧
    ((sysDemo.escalation_agent.process_query sysDemo.memory_bank
        stubSearchDown "t5" "t6" ("Escalation needed: " ++ "Service down")).2
      = Except.error (PyErr.toolFailure "search transport down")) ∧
    ((sysDemo.handle_complex_escalation stubFoundKB1 stubFoundKB1
        stubSearchDown stubTicketOk "t1" "t2" "t3" "t4" "t5" "t6"
        "Service down").2
      = Except.error (PyErr.toolFailure "search transport down")) ∧
    (sysDemo.handle_complex_escalation stubFoundKB1 stubFoundKB1
        stubSearchDown stubTicketOk "t1" "t2" "t3" "t4" "t5" "t6"
        "Service down"
      = sysDemo.handle_complex_escalation stubFoundKB1 stubFoundKB1
          stubSearchDown stubTicketDown "t1" "t2" "t3" "t4" "t5" "t6"
          "Service down") := by
  have hstage1 := (C5_thm sysDemo stubSearchDown stubFoundKB1 stubFoundKB1
    stubSearchDown stubSearchDown stubTicketOk stubTicketDown "t1" "t2" "t3"
    "t4" "t5" "t6" "Service down" "" ""
    (PyErr.toolFailure "search transport down")).1 (by decide)
  have hstage2 := (C5_thm sysDemo stubFoundKB1 stubSearchDown stubFoundKB1
    stubFoundKB1 stubSearchDown stubTicketOk stubTicketDown "t1" "t2" "t3"
    "t4" "t5" "t6" "Service down" "[Issue Router] Found response: KB#1" ""
    (PyErr.toolFailure "search transport down")).2.1 (by decide) (by decide)
  have hstage3 := (C5_thm sysDemo stubFoundKB1 stubFoundKB1 stubSearchDown
    stubFoundKB1 stubSearchDown stubTicketOk stubTicketDown "t1" "t2" "t3"
    "t4" "t5" "t6" "Service down" "[Issue Router] Found response: KB#1"
    "[Technical Support] Found response: KB#1"
    (PyErr.toolFailure "search transport down")).2.2 (by decide) (by decide)
    (by decide)
  exact ⟨by decide, hstage1.1, hstage1.2, by decide, hstage2.1, hstage2.2,
    by decide, hstage3.1, hstage3.2⟩

/-- Claim C6: starting from an empty bank, after storing a list of
interactions for one session, retrieval at the stored count returns every
stored record in call order, and retrieval at any smaller positive count
k returns exactly the last k stored records in call order. -/
theorem C6_thm (sid : String) (items : List (Interaction × String)) (k : Int)
    (hk0 : 0 < k) (hkN : k < (items.length : Int)) :
    (storeAll MemoryBank.empty sid items).retrieve_session_memory sid
        (items.length : Int)
      = items.map (fun it => storedEntry it.1 it.2) ∧
    (storeAll MemoryBank.empty sid items).retrieve_session_memory sid k
      = (items.map (fun it => storedEntry it.1 it.2)).drop
          (items.length - k.toNat) := by
  have hstored : (storeAll MemoryBank.empty sid items).entriesFor sid
      = items.map (fun it => storedEntry it.1 it.2) := by
    rw [entriesFor_storeAll]
    simp [MemoryBank.entriesFor, MemoryBank.empty, msGet]
  constructor
  · rw [retrieve_eq_slice, hstored, pySliceFrom_pos _ _ (by omega)]
    simp
  · rw [retrieve_eq_slice, hstored, pySliceFrom_pos _ _ hk0]
    simp

/-- Claim C6, witness: two stored interactions, full retrieval at limit 2
and last-one retrieval at limit 1. -/
theorem C6_witness :
    (0 : Int) < 1 ∧ (1 : Int) < (twoItems.length : Int) ∧
    (storeAll MemoryBank.empty "session-1" twoItems).retrieve_session_memory
        "session-1" (twoItems.length : Int)
      = twoItems.map (fun it => storedEntry it.1 it.2) ∧
    (storeAll MemoryBank.empty "session-1" twoItems).retrieve_session_memory
        "session-1" 1
      = (twoItems.map (fun it => storedEntry it.1 it.2)).drop
          (twoItems.length - (1 : Int).toNat) := by
  have h := C6_thm "session-1" twoItems 1 (by decide) (by decide)
  exact ⟨by decide, by decide, h.1, h.2⟩

/-- Claim C7: on a session identifier the bank has never seen,
`retrieve_session_memory` returns the empty sequence at every limit and
`compact_context` returns the empty mapping; both are total functions, so
neither can raise. -/
theorem C7_thm (mb : MemoryBank) (sid : String) (limit : Int)
    (h : msGet mb.memory_store sid = none) :
    mb.retrieve_session_memory sid limit = [] ∧
    mb.compact_context sid = none := by
  have hr : ∀ lim : Int, mb.retrieve_session_memory sid lim = [] := by
    intro lim
    unfold MemoryBank.retrieve_session_memory
    rw [h]
  refine ⟨hr limit, ?_⟩
  unfold MemoryBank.compact_context
  rw [dif_pos (hr 10)]

/-- Claim C7, witness: the empty bank has never seen `"ghost-session"`,
and both reads come back empty. -/
theorem C7_witness :
    msGet MemoryBank.empty.memory_store "ghost-session" = none ∧
    MemoryBank.empty.retrieve_session_memory "ghost-session" 5 = [] ∧
    MemoryBank.empty.compact_context "ghost-session" = none :=
  ⟨rfl, C7_thm MemoryBank.empty "ghost-session" 5 rfl⟩

/-- Claim C8: from every starting state, `pause_session` followed by
`resume_session` yields exactly the original orchestrator with its state
and its three agents' states set to `ACTIVE`: the bank, the session ids,
the agent identities and every other field are untouched, and no
interaction record is written. -/
theorem C8_thm (s : CustomerSupportMultiAgentSystem) :
    s.pause_session.resume_session
      = { s with
          state := SessionState.ACTIVE
          routing_agent :=
            { s.routing_agent with state := SessionState.ACTIVE }
          support_agent :=
            { s.support_agent with state := SessionState.ACTIVE }
          escalation_agent :=
            { s.escalation_agent with state := SessionState.ACTIVE } } := rfl

/-- Claim C9: with a stub search tool returning found, results `KB#1`
and confidence 0.85, `process_customer_request` on `"billing issue"`
returns the envelope whose routing slot is
`[Issue Router] Found response: KB#1` and whose support slot is
`[Technical Support] Found response: KB#1`. -/
theorem C9_thm :
    (sysDemo.process_customer_request stubFoundKB1 stubFoundKB1 "t1" "t2"
        "t3" "t4" "t5" "billing issue").2.routing_response
      = Except.ok "[Issue Router] Found response: KB#1" ∧
    (sysDemo.process_customer_request stubFoundKB1 stubFoundKB1 "t1" "t2"
        "t3" "t4" "t5" "billing issue").2.support_response
      = Except.ok "[Technical Support] Found response: KB#1" := by
  constructor
  · decide
  · decide

/-- Claim C10: whenever the search tool returns a result whose `results`
sequence is empty, `process_query` has already appended the query
interaction to the bank and then raises the indexing error from
`results[0]`: the error branch is reachable for any empty search result. -/
theorem C10_thm (a : Agent) (mb : MemoryBank) (search : SearchTool)
    (t1 t2 q : String) (r : SearchResult)
    (hq : search q = Except.ok r) (hr : r.results = []) :
    a.process_query mb search t1 t2 q
      = (mb.store_interaction a.session_id
          [("agent", a.agent_id), ("query", q), ("role", a.role)] t1,
         Except.error PyErr.indexError) := by
  unfold Agent.process_query
  simp only [hq, hr]

/-- Claim C10, witness: the not-found stub has an empty `results`
sequence, and `process_query` on it ends in the index error with the
query interaction already stored. -/
theorem C10_witness :
    (stubNotFound "billing issue"
      = Except.ok { found := false, results := [], confidence := 0 }) ∧
    (Agent.create "router-001" "Issue Router" "sid-router").process_query
        MemoryBank.empty stubNotFound "t1" "t2" "billing issue"
      = (MemoryBank.empty.store_interaction "sid-router"
          [("agent", "router-001"), ("query", "billing issue"),
           ("role", "Issue Router")] "t1",
         Except.error PyErr.indexError) :=
  ⟨rfl, C10_thm (Agent.create "router-001" "Issue Router" "sid-router")
    MemoryBank.empty stubNotFound "t1" "t2" "billing issue"
    { found := false, results := [], confidence := 0 } rfl rfl⟩
